import Mathlib

/-!
Shallow embedding of the health-classification core of the unraid-mcp
repository, and proofs of the spec's claims about it.

Embedded code:
* `src/unraid_mcp/tools/system.py`: `analyze_disk_health` (the disk health
  classifier, defined inside `_get_array_status`), the overall array health
  policy of `_get_array_status`, and the capacity formatting helper
  `format_kb`.
* `src/unraid_mcp/tools/health.py`: the `health_check` tool. The body after
  the telemetry call is embedded as `build_report`, parameterised by the
  (optional) parsed payload and the measured latency; the surrounding
  `try/except` is embedded as `health_check`, parameterised by the outcome
  of the evaluation (`Except`), whose error branch mirrors the dictionary
  returned by the handler at lines 172-184.

Python dictionaries that the code builds key by key are embedded as
association lists `List (String × Nat)` (so that presence/absence of a key
is observable, as the spec talks about it); dictionaries with a fixed shape
are embedded as structures with `Option` fields for the optional keys.
Python truthiness of a dictionary/list argument is embedded as
`Option`-ness/non-emptiness. Latency is embedded as a natural number of
milliseconds (the Python value is a float; every comparison and message in
the embedded code only uses it as an opaque number).
-/

namespace UnraidMCP

/-! ## String helpers

Kernel-reducible embeddings of the Python string operations the code uses
(`str.upper`, `int(...)`, `str.startswith`), defined over the character
list of the string so concrete instances evaluate. -/

/-- Python `s.upper()` (ASCII; every status code the program compares
against is ASCII). -/
def str_upper (s : String) : String :=
  String.mk (s.data.map Char.toUpper)

/-- Digit run of Python `int(...)`: `none` unless the characters are a
non-empty all-digit run. -/
def digits_to_nat : List Char → Option Nat
  | [] => none
  | cs =>
    if cs.all Char.isDigit then
      some (cs.foldl (fun n c => n * 10 + (c.toNat - '0'.toNat)) 0)
    else none

/-- Python `int(s)` on a string: an optional sign followed by digits parses,
anything else raises `ValueError` (embedded as `none`).  Python also strips
surrounding whitespace and allows digit-group underscores; no value the
program handles or any claim mentions uses those, so they are not modelled. -/
def str_to_int (s : String) : Option Int :=
  match s.data with
  | '-' :: cs => (digits_to_nat cs).map (fun n => -(n : Int))
  | '+' :: cs => (digits_to_nat cs).map (fun n => (n : Int))
  | cs => (digits_to_nat cs).map (fun n => (n : Int))

/-- Python `s.startswith(p)`. -/
def str_starts_with (s p : String) : Bool :=
  p.data.isPrefixOf s.data

/-! ## system.py: disk records and the disk health classifier -/

/-- A raw disk record as consumed by `analyze_disk_health`: only the keys the
function reads.  `status` is `disk.get('status', '')` before the default is
applied, so an absent key is `none`; `warning`/`critical` hold the truthiness
of `disk.get('warning')` / `disk.get('critical')`. -/
structure Disk where
  status : Option String
  warning : Bool
  critical : Bool
  deriving Repr, DecidableEq

/-- `d.get(k)` on an association-list dictionary with numeric values,
with default `0` (Python `h.get(k, 0)`). -/
def dget (d : List (String × Nat)) (k : String) : Nat :=
  (d.lookup k).getD 0

/-- `d[k] += 1` on an association-list dictionary (every occurrence of the
key is bumped; in the embedded code keys are unique). -/
def dincr (d : List (String × Nat)) (k : String) : List (String × Nat) :=
  d.map (fun p => if p.1 = k then (p.1, p.2 + 1) else p)

/-- Sum of the values of an association-list dictionary
(Python `sum(d.values())`). -/
def dsum (d : List (String × Nat)) : Nat :=
  (d.map (fun p => p.2)).sum

/-- The zero-initialised `health_counts` dictionary of `analyze_disk_health`
(system.py lines 146-153), in its insertion order. -/
def init_health_counts : List (String × Nat) :=
  [("healthy", 0), ("failed", 0), ("missing", 0), ("new", 0),
   ("warning", 0), ("unknown", 0)]

/-- The branch of the per-disk `if/elif` chain of `analyze_disk_health`
(system.py lines 155-172) that fires for a disk: the name of the bucket the
loop body increments.  `status` is `disk.get('status', '').upper()`. -/
def classify_disk (d : Disk) : String :=
  let status := str_upper (d.status.getD "")
  if status = "DISK_OK" then
    if d.warning || d.critical then "warning" else "healthy"
  else if status = "DISK_DSBL" ∨ status = "DISK_INVALID" then "failed"
  else if status = "DISK_NP" then "missing"
  else if status = "DISK_NEW" then "new"
  else "unknown"

/-- `analyze_disk_health(disks, disk_type)` (system.py lines 141-174): empty
input returns the empty dictionary (`if not disks: return {}`); otherwise the
zero-initialised dictionary with one bucket incremented per disk.  The
`disk_type` argument is unused by the source function and omitted. -/
def analyze_disk_health (disks : List Disk) : List (String × Nat) :=
  if disks = [] then []
  else disks.foldl (fun hc d => dincr hc (classify_disk d)) init_health_counts

/-! ## system.py: overall array health policy -/

/-- `sum(h.get('failed', 0) for h in health_summary.values())`
(system.py line 186). -/
def total_failed (hs : List (List (String × Nat))) : Nat :=
  (hs.map (fun h => dget h "failed")).sum

/-- `sum(h.get('missing', 0) for h in health_summary.values())`
(system.py line 187). -/
def total_missing (hs : List (List (String × Nat))) : Nat :=
  (hs.map (fun h => dget h "missing")).sum

/-- `sum(h.get('warning', 0) for h in health_summary.values())`
(system.py line 188). -/
def total_warning (hs : List (List (String × Nat))) : Nat :=
  (hs.map (fun h => dget h "warning")).sum

/-- The overall array health policy of `_get_array_status`
(system.py lines 186-197), over the values of the `health_summary`
dictionary (one `HealthCounts` dictionary per populated role). -/
def overall_health (hs : List (List (String × Nat))) : String :=
  if total_failed hs > 0 then "CRITICAL"
  else if total_missing hs > 0 then "DEGRADED"
  else if total_warning hs > 0 then "WARNING"
  else "HEALTHY"

/-! ## system.py: capacity formatting helper -/

/-- Two-decimal rendering of the exact rational `k / div` (the embedding of
Python's `f"{k / div:.2f}"`, with round-half-up on the exact quotient in
place of binary-float rounding; the difference is below the granularity any
claim observes). -/
def two_decimals (k : Int) (div : Int) : String :=
  let hundredths : Int := (k * 100 * 2 + div) / (2 * div)
  let whole := hundredths / 100
  let frac := (hundredths % 100).toNat
  toString whole ++ "." ++ (if frac < 10 then "0" else "") ++ toString frac

/-- `format_kb(k)` (system.py lines 120-130).  The argument arrives either
absent (`None`, embedded `none`) or as a string (the SDL delivers capacity
figures as numeric strings); `int(k)` either parses it or raises
`ValueError`, embedded as `Except.error`. -/
def format_kb (k : Option String) : Except String String :=
  match k with
  | none => Except.ok "N/A"
  | some s =>
    match str_to_int s with
    | none => Except.error ("invalid literal for int() with base 10: " ++ s)
    | some n =>
      if n ≥ 1024 * 1024 * 1024 then Except.ok (two_decimals n (1024 * 1024 * 1024) ++ " TB")
      else if n ≥ 1024 * 1024 then Except.ok (two_decimals n (1024 * 1024) ++ " GB")
      else if n ≥ 1024 then Except.ok (two_decimals n 1024 ++ " MB")
      else Except.ok (toString n ++ " KB")

/-! ## health.py: the telemetry payload consumed by `health_check` -/

/-- The fields of `response_data["info"]` that `health_check` copies into the
`unraid_system` subsection (health.py lines 87-96); each is an `Option` for
an absent/null value (`dict.get` chains collapsed to one optional read). -/
structure Info where
  machineId : Option String
  time : Option String
  version : Option String
  uptime : Option String
  deriving Repr, DecidableEq

/-- `response_data["array"]` as read by `health_check`: only the `state` key
is consumed, with `array_info.get("state", "unknown")` (health.py line 104). -/
structure ArrayInfo where
  state : Option String
  deriving Repr, DecidableEq

/-- `notifications["overview"]["unread"]` counters, each read with a default
of `0` (health.py lines 120-122); `none` embeds an absent key. -/
structure Unread where
  alert : Option Nat
  warning : Option Nat
  total : Option Nat
  deriving Repr, DecidableEq

/-- `response_data["notifications"]`: `overview` is `none` when
`notifications.get("overview")` is absent or falsy (health.py line 118);
an `overview` whose `unread` key is absent is `some` of the all-`none`
`Unread`. -/
structure Notifications where
  overview : Option Unread
  deriving Repr, DecidableEq

/-- One element of `docker["containers"]` as read by `health_check`
(health.py lines 139-146): `state` and `status`, each via `c.get(...)` with
defaults `None`/`""` folded into the string (only equality with "running"
and "exited" and the "Up" prefix are observed). -/
structure Container where
  state : String
  status : String
  deriving Repr, DecidableEq

/-- The parsed telemetry payload: each top-level section is `none` when the
corresponding `response_data.get(key, {})` is absent or falsy.  `docker`
holds the `containers` list (the only key of the `docker` section the code
reads); the guard `docker_info and docker_info.get("containers")` is
embedded as `docker = some cs` with `cs ≠ []`. -/
structure Payload where
  info : Option Info
  array_info : Option ArrayInfo
  notifications : Option Notifications
  docker : Option (List Container)
  deriving Repr, DecidableEq

/-! ## health.py: the report -/

/-- The `unraid_system` subsection (health.py lines 89-96); the constant
`status`/`url` entries are omitted as environment configuration. -/
structure SystemSection where
  machine_id : Option String
  time : Option String
  version : Option String
  uptime : Option String
  deriving Repr, DecidableEq

/-- The `array_status` subsection (health.py lines 105-108). -/
structure ArraySection where
  state : String
  healthy : Bool
  deriving Repr, DecidableEq

/-- The `notifications` subsection (health.py lines 124-129). -/
structure NotifSection where
  unread_total : Nat
  unread_alerts : Nat
  unread_warnings : Nat
  has_critical_notifications : Bool
  deriving Repr, DecidableEq

/-- The `docker_services` subsection (health.py lines 142-147). -/
structure DockerSection where
  total_containers : Nat
  running_containers : Nat
  stopped_containers : Nat
  containers_healthy : Nat
  deriving Repr, DecidableEq

/-- The `health_info` dictionary returned by `health_check`: `status`, the
optional `issues` list (set only when non-empty, health.py lines 159-160),
the `error` key of the exception path (line 175), the four optional
subsections, and the latency.  Timestamp and the constant `server` block are
environment data and omitted. -/
structure HealthInfo where
  status : String
  issues : Option (List String)
  error : Option String
  unraid_system : Option SystemSection
  array_status : Option ArraySection
  notifications : Option NotifSection
  docker_services : Option DockerSection
  api_latency_ms : Nat
  deriving Repr, DecidableEq

/-! ## health.py: report evaluation -/

/-- The body of `health_check` from the `if not response_data` guard to the
`return health_info` (health.py lines 79-168): the spec's `build_report`.
`health_status` starts as `"healthy"` (line 30) and is threaded through the
sequential checks exactly as the source overwrites it; `issues` accumulates
in evaluation order. -/
def build_report (response_data : Option Payload) (api_latency : Nat) : HealthInfo :=
  match response_data with
  | none =>
    { status := "unhealthy", issues := some ["No response from Unraid API"],
      error := none, unraid_system := none, array_status := none,
      notifications := none, docker_services := none,
      api_latency_ms := api_latency }
  | some rd =>
    -- System info analysis (lines 87-99)
    let step1 : String × List String × Option SystemSection :=
      match rd.info with
      | some i => ("healthy", [], some ⟨i.machineId, i.time, i.version, i.uptime⟩)
      | none => ("degraded", ["Unable to retrieve system info"], none)
    let st1 := step1.1; let is1 := step1.2.1; let sysSec := step1.2.2
    -- Array health analysis (lines 102-114)
    let step2 : String × List String × Option ArraySection :=
      match rd.array_info with
      | some a =>
        let array_state := a.state.getD "unknown"
        if array_state = "STARTED" ∨ array_state = "STOPPED" then
          (st1, is1, some ⟨array_state, true⟩)
        else
          ("warning", is1 ++ ["Array in unexpected state: " ++ array_state],
           some ⟨array_state, false⟩)
      | none => ("warning", is1 ++ ["Unable to retrieve array status"], none)
    let st2 := step2.1; let is2 := step2.2.1; let arrSec := step2.2.2
    -- Notifications analysis (lines 117-133)
    let step3 : String × List String × Option NotifSection :=
      match rd.notifications.bind (fun n => n.overview) with
      | some u =>
        let alert_count := u.alert.getD 0
        let warning_count := u.warning.getD 0
        let total_unread := u.total.getD 0
        let sec : NotifSection :=
          ⟨total_unread, alert_count, warning_count, alert_count > 0⟩
        if alert_count > 0 then
          ("warning",
           is2 ++ [toString alert_count ++ " unread alert notification(s)"],
           some sec)
        else (st2, is2, some sec)
      | none => (st2, is2, none)
    let st3 := step3.1; let is3 := step3.2.1; let notifSec := step3.2.2
    -- Docker services analysis (lines 136-147): never touches status/issues
    let dockerSec : Option DockerSection :=
      match rd.docker with
      | some containers =>
        if containers = [] then none
        else some
          ⟨containers.length,
           (containers.filter (fun c => c.state == "running")).length,
           (containers.filter (fun c => c.state == "exited")).length,
           (containers.filter (fun c => str_starts_with c.status "Up")).length⟩
      | none => none
    -- API performance assessment (lines 150-155): an if/elif chain
    let step4 : String × List String :=
      if api_latency > 5000 then
        ("warning", is3 ++ ["High API latency: " ++ toString api_latency ++ "ms"])
      else if api_latency > 10000 then
        ("degraded", is3 ++ ["Very high API latency: " ++ toString api_latency ++ "ms"])
      else (st3, is3)
    -- Final status determination (lines 157-160)
    { status := step4.1,
      issues := if step4.2 = [] then none else some step4.2,
      error := none, unraid_system := sysSec, array_status := arrSec,
      notifications := notifSec, docker_services := dockerSec,
      api_latency_ms := api_latency }

/-- The whole `health_check` tool: the `try` body evaluates the payload via
`build_report`; any exception `e` reaches the handler (health.py lines
170-184), which returns a fresh dictionary with the fault text under the
`error` key and no `issues` key and no subsections. -/
def health_check (outcome : Except String (Option Payload)) (api_latency : Nat) :
    HealthInfo :=
  match outcome with
  | Except.ok response_data => build_report response_data api_latency
  | Except.error e =>
    { status := "unhealthy", issues := none, error := some e,
      unraid_system := none, array_status := none, notifications := none,
      docker_services := none, api_latency_ms := api_latency }

/-! ## Spec-side definitions

Definitions written from the SPEC's words (not the source), named
`spec_...`, used only to contrast the source's behaviour with the spec's
prescribed invariant. -/

/-- Rank of a report status in the spec's total order
`healthy < warning < degraded < unhealthy` (spec §3, SystemHealthReport). -/
def rank : String → Nat
  | "warning" => 1
  | "degraded" => 2
  | "unhealthy" => 3
  | _ => 0

/-- The status string of a rank. -/
def status_of_rank : Nat → String
  | 0 => "healthy"
  | 1 => "warning"
  | 2 => "degraded"
  | _ => "unhealthy"

/-- Modelled from the spec's invariant (§3, §4.4), not from the source: the
status of a report on a present payload is the maximum over the ranks
implied by the independently evaluated rules (absent system info ≥ degraded;
array state outside STARTED/STOPPED ≥ warning; absent array section ≥
warning; unread alerts ≥ warning; latency > 5000 ≥ warning;
latency > 10000 ≥ degraded). -/
def spec_max_status (p : Payload) (l : Nat) : String :=
  let r1 := match p.info with | some _ => 0 | none => 2
  let r2 := match p.array_info with
    | some a =>
      let s := a.state.getD "unknown"
      if s = "STARTED" ∨ s = "STOPPED" then 0 else 1
    | none => 1
  let r3 := match p.notifications.bind (fun n => n.overview) with
    | some u => if u.alert.getD 0 > 0 then 1 else 0
    | none => 0
  let r4 := if l > 5000 then 1 else 0
  let r5 := if l > 10000 then 2 else 0
  status_of_rank (max (max (max (max r1 r2) r3) r4) r5)

/-- A nominal telemetry payload: system info present, array `STARTED`, zero
unread notifications, no docker data. -/
def nominal_payload : Payload :=
  ⟨some ⟨none, none, none, none⟩, some ⟨some "STARTED"⟩,
   some ⟨some ⟨some 0, some 0, some 0⟩⟩, none⟩

/-- A payload whose every section is absent. -/
def all_absent_payload : Payload := ⟨none, none, none, none⟩

/-! ## Helper lemmas about the classifier's dictionary -/

/-- `dincr` leaves the key list of a dictionary unchanged. -/
lemma dincr_keys (hc : List (String × Nat)) (k : String) :
    (dincr hc k).map Prod.fst = hc.map Prod.fst := by
  induction hc with
  | nil => rfl
  | cons p t ih =>
    simp only [dincr, List.map_cons, List.map] at *
    by_cases h : p.1 = k <;> simp [h, ih]

/-- `dincr` adds to the value sum one unit per occurrence of the key. -/
lemma dsum_dincr (hc : List (String × Nat)) (k : String) :
    dsum (dincr hc k) = dsum hc + (hc.map Prod.fst).count k := by
  induction hc with
  | nil => rfl
  | cons p t ih =>
    have step : dincr (p :: t) k =
        (if p.1 = k then (p.1, p.2 + 1) else p) :: dincr t k := rfl
    rw [step]
    by_cases h : p.1 = k <;>
      simp only [if_pos, if_neg, h, dsum, List.map_cons, List.sum_cons,
        List.count_cons, ite_true, ite_false] at ih ⊢ <;>
      simp [h, ih] <;> omega

/-- The bucket names of the classifier. -/
def bucket_names : List String :=
  ["healthy", "failed", "missing", "new", "warning", "unknown"]

/-- Every disk is classified into one of the six buckets. -/
lemma classify_disk_mem_bucket_names (d : Disk) :
    classify_disk d ∈ bucket_names := by
  simp only [classify_disk, bucket_names]
  split_ifs <;> simp

/-- The per-disk loop of `analyze_disk_health` preserves the key list of the
accumulator dictionary. -/
lemma analyze_fold_keys (disks : List Disk) (hc : List (String × Nat)) :
    ((disks.foldl (fun hc d => dincr hc (classify_disk d)) hc).map Prod.fst) =
      hc.map Prod.fst := by
  induction disks generalizing hc with
  | nil => rfl
  | cons d ds ih =>
    simp only [List.foldl_cons]
    rw [ih, dincr_keys]

/-- Over an accumulator carrying the six bucket keys exactly once each, the
per-disk loop adds exactly one to the value sum per disk. -/
lemma analyze_fold_dsum (disks : List Disk) (hc : List (String × Nat))
    (hkeys : hc.map Prod.fst = bucket_names) :
    dsum (disks.foldl (fun hc d => dincr hc (classify_disk d)) hc) =
      dsum hc + disks.length := by
  induction disks generalizing hc with
  | nil => simp
  | cons d ds ih =>
    simp only [List.foldl_cons, List.length_cons]
    rw [ih _ (by rw [dincr_keys, hkeys]), dsum_dincr, hkeys]
    have hmem := classify_disk_mem_bucket_names d
    have hcount : ∀ x ∈ bucket_names, bucket_names.count x = 1 := by decide
    rw [hcount _ hmem]
    omega

/-! ## Theorems for the claims -/

/-- C1 (code bug evidence): `build_report` does NOT compute the max-merge of
the independently evaluated rules.  On a payload whose system-info and array
sections are both absent, the system-info check sets `"degraded"` and the
later array check overwrites it down to `"warning"` (the issue list shows
both rules fired, in that order), while the spec's max-merge prescribes
`"degraded"`: a later check lowers the rank established by an earlier one,
so the status is order-dependent and not the maximum. -/
theorem build_report_overwrites_not_max :
    (build_report (some all_absent_payload) 0).status = "warning" ∧
      (build_report (some all_absent_payload) 0).issues =
        some ["Unable to retrieve system info", "Unable to retrieve array status"] ∧
      spec_max_status all_absent_payload 0 = "degraded" ∧
      rank "warning" < rank "degraded" :=
  ⟨rfl, by decide, rfl, by decide⟩

/-- C2 (code bug evidence): the two latency thresholds are NOT evaluated
independently — the source uses `if api_latency > 5000: ... elif
api_latency > 10000: ...`, so the `> 10000` branch is unreachable.  With a
nominal payload and `latency_ms = 12000` the report carries a single latency
issue and status `"warning"`, while the spec prescribes two latency issues
and `"degraded"`. -/
theorem build_report_latency_elif_dead :
    (build_report (some nominal_payload) 12000).status = "warning" ∧
      (build_report (some nominal_payload) 12000).issues =
        some ["High API latency: 12000ms"] ∧
      spec_max_status nominal_payload 12000 = "degraded" :=
  ⟨rfl, by decide, rfl⟩

/-- C3 (counterexample): `format_kb` DOES raise on unparseable input — only
`None` yields `"N/A"`; a non-numeric string reaches `int(k)`, which raises
`ValueError` (embedded as `Except.error`). -/
theorem format_kb_unparseable_raises :
    format_kb (some "abc") =
        Except.error "invalid literal for int() with base 10: abc" ∧
      format_kb (some "abc") ≠ Except.ok "N/A" :=
  ⟨rfl, fun h => Except.noConfusion h⟩

/-- C3 (amended): `format_kb` returns the sentinel `"N/A"` exactly for
`None`; for a string that does not parse as an integer it raises a
`ValueError` (which propagates out of the capacity formatting and aborts the
enclosing report), rather than returning a sentinel. -/
theorem format_kb_none_or_unparseable (s : String)
    (h : str_to_int s = none) :
    format_kb none = Except.ok "N/A" ∧
      format_kb (some s) =
        Except.error ("invalid literal for int() with base 10: " ++ s) := by
  refine ⟨rfl, ?_⟩
  simp only [format_kb, h]

/-- Witness for C3's amended theorem at the concrete input `"abc"`. -/
theorem format_kb_none_or_unparseable_witness :
    format_kb none = Except.ok "N/A" ∧
      format_kb (some "abc") =
        Except.error ("invalid literal for int() with base 10: " ++ "abc") :=
  format_kb_none_or_unparseable "abc" (by decide)

/-- C4 (counterexample): on the fault path the report has NO issue list at
all — the fault description goes under a dedicated `error` key and the
`issues` key is absent, so the issue list does not contain the fault as its
sole element. -/
theorem health_check_fault_no_issue_list :
    (health_check (Except.error "boom") 7).issues = none ∧
      (health_check (Except.error "boom") 7).error = some "boom" ∧
      (health_check (Except.error "boom") 7).status = "unhealthy" :=
  ⟨rfl, rfl, rfl⟩

/-- C4 (amended): for every exception raised during report evaluation,
`health_check` aborts the whole report and returns status `"unhealthy"` with
the fault's description under the `error` key (no `issues` list), and none
of the system/array/notifications/docker subsections present. -/
theorem health_check_fault_report (e : String) (l : Nat) :
    health_check (Except.error e) l =
      { status := "unhealthy", issues := none, error := some e,
        unraid_system := none, array_status := none, notifications := none,
        docker_services := none, api_latency_ms := l } :=
  rfl

/-- C5: with an entirely absent telemetry payload, `build_report`
short-circuits to status `"unhealthy"` with the single issue
`"No response from Unraid API"` and none of the system, array,
notifications, or docker subsections present. -/
theorem build_report_absent_payload (l : Nat) :
    build_report none l =
      { status := "unhealthy", issues := some ["No response from Unraid API"],
        error := none, unraid_system := none, array_status := none,
        notifications := none, docker_services := none,
        api_latency_ms := l } :=
  rfl

/-- C6: the overall array health policy returns `CRITICAL` iff the summed
`failed` count over all roles is positive, else `DEGRADED` iff the summed
`missing` count is positive, else `WARNING` iff the summed `warning` count
is positive, else `HEALTHY`; and the verdict is invariant under any
permutation of the per-role counts. -/
theorem overall_health_policy (hs hs' : List (List (String × Nat)))
    (hperm : hs.Perm hs') :
    overall_health hs = overall_health hs' ∧
      (overall_health hs = "CRITICAL" ↔ 0 < total_failed hs) ∧
      (overall_health hs = "DEGRADED" ↔
        total_failed hs = 0 ∧ 0 < total_missing hs) ∧
      (overall_health hs = "WARNING" ↔
        total_failed hs = 0 ∧ total_missing hs = 0 ∧ 0 < total_warning hs) ∧
      (overall_health hs = "HEALTHY" ↔
        total_failed hs = 0 ∧ total_missing hs = 0 ∧ total_warning hs = 0) := by
  have hf : total_failed hs = total_failed hs' :=
    List.Perm.sum_eq (hperm.map _)
  have hm : total_missing hs = total_missing hs' :=
    List.Perm.sum_eq (hperm.map _)
  have hw : total_warning hs = total_warning hs' :=
    List.Perm.sum_eq (hperm.map _)
  refine ⟨?_, ?_⟩
  · simp only [overall_health, hf, hm, hw]
  · unfold overall_health
    split_ifs <;> simp_all <;> omega

/-- Witness for C6 at a concrete pair of permuted role maps. -/
theorem overall_health_policy_witness :
    overall_health [[("failed", 1)], [("missing", 2)]] =
      overall_health [[("missing", 2)], [("failed", 1)]] :=
  (overall_health_policy _ _ (List.Perm.swap _ _ _)).1

/-- C7: the per-disk classification of `analyze_disk_health` buckets every
disk by exactly one rule of the `if/elif` chain, matching the status code
case-insensitively (only the uppercased code and the two flags matter):
`DISK_OK` with a warning or critical flag → `warning`; `DISK_OK` with
neither flag → `healthy`; `DISK_DSBL`/`DISK_INVALID` → `failed`; `DISK_NP`
→ `missing`; `DISK_NEW` → `new`; any other status → `unknown`. -/
theorem classify_disk_rules (d : Disk) :
    (∀ d' : Disk,
      str_upper (d'.status.getD "") = str_upper (d.status.getD "") →
      d'.warning = d.warning → d'.critical = d.critical →
      classify_disk d' = classify_disk d) ∧
      (str_upper (d.status.getD "") = "DISK_OK" →
        ((d.warning = true ∨ d.critical = true) →
          classify_disk d = "warning") ∧
        (d.warning = false → d.critical = false →
          classify_disk d = "healthy")) ∧
      (str_upper (d.status.getD "") = "DISK_DSBL" ∨
          str_upper (d.status.getD "") = "DISK_INVALID" →
        classify_disk d = "failed") ∧
      (str_upper (d.status.getD "") = "DISK_NP" →
        classify_disk d = "missing") ∧
      (str_upper (d.status.getD "") = "DISK_NEW" →
        classify_disk d = "new") ∧
      (str_upper (d.status.getD "") ∉
          ["DISK_OK", "DISK_DSBL", "DISK_INVALID", "DISK_NP", "DISK_NEW"] →
        classify_disk d = "unknown") := by
  refine ⟨?_, ?_, ?_, ?_, ?_, ?_⟩
  · intro d' h1 h2 h3
    simp only [classify_disk, h1, h2, h3]
  · intro hok
    constructor
    · rintro (hw | hc)
      · simp [classify_disk, hok, hw]
      · simp [classify_disk, hok, hc]
    · intro hw hc
      simp [classify_disk, hok, hw, hc]
  · rintro (h | h) <;> simp [classify_disk, h]
  · intro h; simp [classify_disk, h]
  · intro h; simp [classify_disk, h]
  · intro h
    simp only [List.mem_cons, List.not_mem_nil, or_false, not_or] at h
    obtain ⟨h1, h2, h3, h4, h5⟩ := h
    simp [classify_disk, h1, h2, h3, h4, h5]

/-- Witness for C7 at a lowercase `disk_ok` record with the warning flag. -/
theorem classify_disk_rules_witness :
    classify_disk ⟨some "disk_ok", true, false⟩ = "warning" :=
  ((classify_disk_rules ⟨some "disk_ok", true, false⟩).2.1 (by decide)).1
    (Or.inl rfl)

/-- C8: for every list of disk records (including the empty one), the bucket
counts returned by `analyze_disk_health` sum to the number of input disks. -/
theorem analyze_disk_health_counts_total (disks : List Disk) :
    dsum (analyze_disk_health disks) = disks.length := by
  unfold analyze_disk_health
  split_ifs with h
  · subst h; rfl
  · rw [analyze_fold_dsum disks init_health_counts rfl]
    simp [dsum, init_health_counts]

/-- C9 (counterexample): `analyze_disk_health` applied to the empty disk
list returns the EMPTY dictionary (`if not disks: return {}`), so no bucket
is present — looking up `healthy` finds nothing. -/
theorem analyze_disk_health_empty_is_empty :
    analyze_disk_health [] = [] ∧
      (analyze_disk_health []).lookup "healthy" = none :=
  ⟨rfl, rfl⟩

/-- C9 (amended): an empty disk list yields the empty map with no buckets
present, while every non-empty disk list yields a map carrying exactly the
six buckets healthy, failed, missing, new, warning, unknown. -/
theorem analyze_disk_health_empty_vs_nonempty (d : Disk) (ds : List Disk) :
    analyze_disk_health [] = [] ∧
      (analyze_disk_health (d :: ds)).map Prod.fst = bucket_names := by
  refine ⟨rfl, ?_⟩
  unfold analyze_disk_health
  rw [if_neg (by simp), analyze_fold_keys]
  rfl

/-- C10: docker container data never influences the report's status or
issue list — for any payload, replacing the docker section by anything
(including removing it) leaves `build_report`'s status and issues unchanged;
the docker data only populates the informational `docker_services`
subsection. -/
theorem build_report_docker_noninterference (p : Payload)
    (d : Option (List Container)) (l : Nat) :
    (build_report (some { p with docker := d }) l).status =
        (build_report (some p) l).status ∧
      (build_report (some { p with docker := d }) l).issues =
        (build_report (some p) l).issues :=
  ⟨rfl, rfl⟩

end UnraidMCP
